import Mathlib

/-!
Shallow embedding of the SAM-conversion core of `src/ga4gh/converters/converters.py`:
the CIGAR code table (`SamCigar`), the SAM flag utilities (`SamFlags`), the header
builder (`SamConverter._getHeader` / `SamConverter._getTargetIds`) and the record
transcoder (`SamLine.toAlignedSegment` / `toSamFlag` / `toCigar` / `toTags`).

Python features that the source leans on are made explicit:
* optional protobuf sub-messages that the code tests with `is None` become `Option`;
* `next_mate_position.ByteSize()` on `None` raises, so `toSamFlag` returns `Except`;
* Python list indexing (negative indices wrap, out-of-range raises `IndexError`)
  is `pyListGet`;
* `collections.defaultdict(int)` lookup (missing key yields `0`) is `ddLookup`.
-/

/-- Strand enumeration of the upstream `ga4gh.schemas` protocol
(`protocol.NEG_STRAND` and friends); the protobuf default value is
`STRAND_UNSPECIFIED`. -/
inductive Strand where
  | STRAND_UNSPECIFIED
  | NEG_STRAND
  | POS_STRAND
deriving DecidableEq

/-- Position sub-message of the upstream schema: a reference name, a 0-based
offset and a strand.  Used both for `alignment.position` and for
`next_mate_position`. -/
structure Position where
  reference_name : String
  position : Int
  strand : Strand
deriving DecidableEq

/-- CigarUnit operation kinds of `protocol.CigarUnit`.  `OPERATION_UNSPECIFIED`
is the protobuf enum default; it is not one of the nine entries of
`SamCigar.cigarStrings`. -/
inductive CigarOperation where
  | OPERATION_UNSPECIFIED
  | ALIGNMENT_MATCH
  | INSERT
  | DELETE
  | SKIP
  | CLIP_SOFT
  | CLIP_HARD
  | PAD
  | SEQUENCE_MATCH
  | SEQUENCE_MISMATCH
deriving DecidableEq

/-- CigarUnit sub-message: an operation kind and its length. -/
structure CigarUnit where
  operation : CigarOperation
  operation_length : Int
deriving DecidableEq

/-- LinearAlignment sub-message: placement, mapping quality and CIGAR of a read. -/
structure LinearAlignment where
  position : Position
  mapping_quality : Int
  cigar : List CigarUnit
deriving DecidableEq

/-- Python value extracted from a protobuf attribute value by
`protocol.getValueFromValue`; the spec (section 3) limits attribute values to
integer, float or string.  Floats are carried opaquely as their printed
representation: the transcoder never computes with a float, it only tests the
concrete type and passes the value through. -/
inductive PyVal where
  | intV (i : Int)
  | floatV (printed : String)
  | strV (s : String)
deriving DecidableEq

/-- Models `isinstance(v, (int, float, long))` from `SamLine._parseTagValue`. -/
def isNumericPyVal : PyVal → Bool
  | .intV _ => true
  | .floatV _ => true
  | .strV _ => false

/-- Models Python `str(v)` for the values that can reach the textual branch of
`SamLine._parseTagValue`. -/
def pyStrOfVal : PyVal → String
  | .intV i => toString i
  | .floatV printed => printed
  | .strV s => s

/-- Result of `SamLine._parseTagValue`: Python returns either the list of all
values (multi-valued tag), a bare numeric value, or an encoded string; the
three shapes are summed here. -/
inductive TagParsed where
  | multi (vs : List PyVal)
  | bare (v : PyVal)
  | text (s : String)
deriving DecidableEq

/-- Input alignment record, with exactly the fields `converters.py` reads.
Field names follow the snake_case attribute names used by the code
(`read.fragment_name`, `read.alignment`, ...).  `alignment` and
`next_mate_position` are `Option` because the code tests them with `is None`;
`attributes` models `read.attributes.attr.items()` as an ordered list of
(tag, values) pairs. -/
structure ReadAlignment where
  fragment_name : String
  aligned_sequence : String
  aligned_quality : List Int
  alignment : Option LinearAlignment
  next_mate_position : Option Position
  number_reads : Int
  improper_placement : Bool
  read_number : Int
  secondary_alignment : Bool
  failed_vendor_quality_checks : Bool
  duplicate_fragment : Bool
  supplementary_alignment : Bool
  fragment_length : Int
  attributes : List (String × List PyVal)
deriving DecidableEq

/-- Class attribute `SamCigar.cigarStrings`: the nine protocol operation kinds
in the order of the standard SAM operation-code assignment. -/
def SamCigar.cigarStrings : List CigarOperation :=
  [CigarOperation.ALIGNMENT_MATCH,
   CigarOperation.INSERT,
   CigarOperation.DELETE,
   CigarOperation.SKIP,
   CigarOperation.CLIP_SOFT,
   CigarOperation.CLIP_HARD,
   CigarOperation.PAD,
   CigarOperation.SEQUENCE_MATCH,
   CigarOperation.SEQUENCE_MISMATCH]

/-- Models `SamCigar.ga2int`: a linear scan of `cigarStrings` returning the
first matching index; Python falls off the loop and implicitly returns `None`
when no entry matches, hence the `Option`. -/
def SamCigar.ga2int (value : CigarOperation) : Option Nat :=
  SamCigar.cigarStrings.findIdx? (fun cigarString => cigarString == value)

/-- Models Python list subscription `l[i]`: negative indices count from the end
of the list, anything still out of range raises `IndexError`. -/
def pyListGet {α : Type} (l : List α) (i : Int) : Except String α :=
  let j : Int := if i < 0 then (l.length : Int) + i else i
  if h : 0 ≤ j ∧ j.toNat < l.length then Except.ok (l.get ⟨j.toNat, h.2⟩)
  else Except.error "IndexError: list index out of range"

/-- Models `SamCigar.int2ga`, which is `cls.cigarStrings[value]` with Python
list-indexing semantics. -/
def SamCigar.int2ga (value : Int) : Except String CigarOperation :=
  pyListGet SamCigar.cigarStrings value

/-- Flag constant `SamFlags.READ_PAIRED`. -/
def SamFlags.READ_PAIRED : Nat := 0x1
/-- Flag constant `SamFlags.READ_PROPER_PAIR`. -/
def SamFlags.READ_PROPER_PAIR : Nat := 0x2
/-- Flag constant `SamFlags.READ_UNMAPPED`. -/
def SamFlags.READ_UNMAPPED : Nat := 0x4
/-- Flag constant `SamFlags.MATE_UNMAPPED`. -/
def SamFlags.MATE_UNMAPPED : Nat := 0x8
/-- Flag constant `SamFlags.READ_REVERSE_STRAND`. -/
def SamFlags.READ_REVERSE_STRAND : Nat := 0x10
/-- Flag constant `SamFlags.MATE_REVERSE_STRAND`. -/
def SamFlags.MATE_REVERSE_STRAND : Nat := 0x20
/-- Flag constant `SamFlags.FIRST_IN_PAIR`. -/
def SamFlags.FIRST_IN_PAIR : Nat := 0x40
/-- Flag constant `SamFlags.SECOND_IN_PAIR`. -/
def SamFlags.SECOND_IN_PAIR : Nat := 0x80
/-- Flag constant `SamFlags.SECONDARY_ALIGNMENT`. -/
def SamFlags.SECONDARY_ALIGNMENT : Nat := 0x100
/-- Flag constant `SamFlags.FAILED_QUALITY_CHECK`. -/
def SamFlags.FAILED_QUALITY_CHECK : Nat := 0x200
/-- Flag constant `SamFlags.DUPLICATE_READ`. -/
def SamFlags.DUPLICATE_READ : Nat := 0x400
/-- Flag constant `SamFlags.SUPPLEMENTARY_ALIGNMENT`. -/
def SamFlags.SUPPLEMENTARY_ALIGNMENT : Nat := 0x800

/-- Models `SamFlags.isFlagSet`: `flagAttr & flag == flag`. -/
def SamFlags.isFlagSet (flagAttr flag : Nat) : Bool :=
  flagAttr &&& flag == flag

/-- Models `SamFlags.setFlag`: `flagAttr | flag`. -/
def SamFlags.setFlag (flagAttr flag : Nat) : Nat :=
  flagAttr ||| flag

/-- Modelled from the spec: the reference id an unmapped read keeps.  The
transcoder never assigns `reference_id` for an unmapped read, so the field
keeps the fresh `pysam.AlignedSegment` value; pysam (an external dependency,
not part of src/) initialises tid/pos/mtid/mpos to -1, the SAM unmapped
sentinel the spec refers to in sections 4.4 and 8. -/
def unmappedSentinel : Int := -1

/-- Modelled from the spec: the output record the external sink consumes
(`pysam.AlignedSegment`, not part of src/), restricted to the fields the
transcoder assigns.  Default values are the fresh-instance values: flag 0,
tid/pos/mtid/mpos at the unmapped sentinel, mapping quality 0 (spec section
4.4: left at its default, unset/zero, when `alignment` is absent). -/
structure AlignedSegment where
  query_name : String := ""
  query_sequence : String := ""
  flag : Nat := 0
  reference_id : Int := unmappedSentinel
  reference_start : Int := unmappedSentinel
  mapping_quality : Int := 0
  cigar : List (Option Nat × Int) := []
  next_reference_id : Int := unmappedSentinel
  next_reference_start : Int := unmappedSentinel
  template_length : Int := 0
  query_qualities : List Int := []
  tags : List (String × TagParsed) := []
deriving DecidableEq

/-- Reference metadata the converter is constructed with (`self._reference`):
a name and a length. -/
structure Reference where
  name : String
  length : Int
deriving DecidableEq

/-- One entry of the `SQ` list of the header dictionary. -/
structure SQHeaderLine where
  LN : Int
  SN : String
deriving DecidableEq

/-- Header dictionary built by `SamConverter._getHeader`:
`{'HD': {'VN': ...}, 'SQ': [...]}`. -/
structure SamHeader where
  HD_VN : String
  SQ : List SQHeaderLine
deriving DecidableEq

/-- Models `SamConverter._getHeader`: format version "1.0" and one `SQ` entry
taken verbatim from the reference. -/
def SamConverter._getHeader (reference : Reference) : SamHeader :=
  { HD_VN := "1.0",
    SQ := [{ LN := reference.length, SN := reference.name }] }

/-- Models `SamConverter._getTargetIds`: walk the `SQ` lines of the header in
order, assigning target ids 0, 1, 2, ... by sequential dictionary assignment.
The result is kept as the ordered assignment log; `ddLookup` reads it with
dictionary semantics (the last assignment to a key wins). -/
def SamConverter._getTargetIds (header : SamHeader) : List (String × Nat) :=
  header.SQ.enum.map (fun p => (p.2.SN, p.1))

/-- Models reading `collections.defaultdict(int)` built by sequential
assignment: the value of the last assignment to the key, if any. -/
def ddFind (t : List (String × Nat)) (k : String) : Option Nat :=
  t.foldl (fun acc kv => if kv.1 == k then some kv.2 else acc) none

/-- Models `targetIds[refName]` on the `defaultdict(int)`: a missing key yields
`int()`, that is `0`. -/
def ddLookup (t : List (String × Nat)) (k : String) : Nat :=
  (ddFind t k).getD 0

/-- Models `position.ByteSize() == 0` on a present protobuf Position message
(the comment in `toSamFlag` calls this "cleared"); per the spec (section 4.4)
a message is cleared exactly when every field has its zero/default value. -/
def byteSizeZero (p : Position) : Bool :=
  p.reference_name == "" && p.position == 0 && p.strand == Strand.STRAND_UNSPECIFIED

/-- Models `SamLine.toSamFlag`.  The conditional OR-ing of the twelve flag bits
follows the source order exactly.  The `next_mate_position.ByteSize()` access
has no `None` guard in the source, so an absent mate position raises
`AttributeError` there; every later step (including the guarded
`is not None` mate-reverse-strand test) runs with the mate position known to
be present. -/
def SamLine.toSamFlag (read : ReadAlignment) : Except String Nat :=
  let flag : Nat := 0
  let flag := if read.number_reads == 2 then
    SamFlags.setFlag flag SamFlags.READ_PAIRED else flag
  let flag := if !read.improper_placement then
    SamFlags.setFlag flag SamFlags.READ_PROPER_PAIR else flag
  let flag := if read.alignment.isNone then
    SamFlags.setFlag flag SamFlags.READ_UNMAPPED else flag
  match read.next_mate_position with
  | none => Except.error "AttributeError: NoneType object has no attribute ByteSize"
  | some mate =>
    let flag := if byteSizeZero mate then
      SamFlags.setFlag flag SamFlags.MATE_UNMAPPED else flag
    let flag :=
      match read.alignment with
      | some a => if a.position.strand == Strand.NEG_STRAND then
          SamFlags.setFlag flag SamFlags.READ_REVERSE_STRAND else flag
      | none => flag
    let flag := if mate.strand == Strand.NEG_STRAND then
      SamFlags.setFlag flag SamFlags.MATE_REVERSE_STRAND else flag
    let flag :=
      if read.read_number == -1 then flag
      else if read.read_number == 0 then
        SamFlags.setFlag flag SamFlags.FIRST_IN_PAIR
      else if read.read_number == 1 then
        SamFlags.setFlag flag SamFlags.SECOND_IN_PAIR
      else
        SamFlags.setFlag (SamFlags.setFlag flag SamFlags.FIRST_IN_PAIR)
          SamFlags.SECOND_IN_PAIR
    let flag := if read.secondary_alignment then
      SamFlags.setFlag flag SamFlags.SECONDARY_ALIGNMENT else flag
    let flag := if read.failed_vendor_quality_checks then
      SamFlags.setFlag flag SamFlags.FAILED_QUALITY_CHECK else flag
    let flag := if read.duplicate_fragment then
      SamFlags.setFlag flag SamFlags.DUPLICATE_READ else flag
    let flag := if read.supplementary_alignment then
      SamFlags.setFlag flag SamFlags.SUPPLEMENTARY_ALIGNMENT else flag
    Except.ok flag

/-- Models `SamLine.toCigar`: empty when `alignment` is absent, otherwise each
cigar unit becomes the pair `(SamCigar.ga2int(operation), length)` in order.
The first component keeps the raw `ga2int` return, hence `Option Nat`. -/
def SamLine.toCigar (read : ReadAlignment) : List (Option Nat × Int) :=
  match read.alignment with
  | none => []
  | some a => a.cigar.map (fun u => (SamCigar.ga2int u.operation, u.operation_length))

/-- Models `SamLine._parseTagValue`: a list of more than one value is returned
whole; otherwise `value[0]` is inspected (raising `IndexError` on an empty
list), a numeric value is returned bare, anything else is stringified. -/
def SamLine._parseTagValue (value : List PyVal) : Except String TagParsed :=
  if 1 < value.length then
    Except.ok (TagParsed.multi value)
  else
    match value with
    | [] => Except.error "IndexError: list index out of range"
    | v :: _ =>
      if isNumericPyVal v then Except.ok (TagParsed.bare v)
      else Except.ok (TagParsed.text (pyStrOfVal v))

/-- Loop body of `SamLine.toTags`: walk the (tag, values) pairs in order,
appending `(tag, _parseTagValue(values))`; an exception raised by
`_parseTagValue` aborts the whole call. -/
def SamLine.tagsLoop :
    List (String × List PyVal) → Except String (List (String × TagParsed))
  | [] => Except.ok []
  | kv :: rest =>
    match SamLine._parseTagValue kv.2 with
    | Except.error e => Except.error e
    | Except.ok val =>
      match SamLine.tagsLoop rest with
      | Except.error e => Except.error e
      | Except.ok tags => Except.ok ((kv.1, val) :: tags)

/-- Models `SamLine.toTags`: each (tag, values) pair of the attributes becomes
`(tag, _parseTagValue(values))`, in iteration order. -/
def SamLine.toTags (read : ReadAlignment) :
    Except String (List (String × TagParsed)) :=
  SamLine.tagsLoop read.attributes

/-- Models `SamLine.toAlignedSegment`: start from a fresh `AlignedSegment` and
assign the fields in source order.  When `alignment` is absent, `reference_id`
and `mapping_quality` are left at their fresh-instance defaults while
`reference_start` is explicitly set to 0. -/
def SamLine.toAlignedSegment (read : ReadAlignment)
    (targetIds : List (String × Nat)) : Except String AlignedSegment :=
  let ret : AlignedSegment := {}
  -- QNAME
  let ret := { ret with query_name := read.fragment_name }
  -- SEQ
  let ret := { ret with query_sequence := read.aligned_sequence }
  -- FLAG
  match SamLine.toSamFlag read with
  | Except.error e => Except.error e
  | Except.ok flag =>
    let ret := { ret with flag := flag }
    -- RNAME
    let ret :=
      match read.alignment with
      | some a =>
        { ret with reference_id := (ddLookup targetIds a.position.reference_name : Int) }
      | none => ret
    -- POS
    let ret :=
      match read.alignment with
      | none => { ret with reference_start := 0 }
      | some a => { ret with reference_start := a.position.position }
    -- MAPQ
    let ret :=
      match read.alignment with
      | some a => { ret with mapping_quality := a.mapping_quality }
      | none => ret
    -- CIGAR
    let ret := { ret with cigar := SamLine.toCigar read }
    -- RNEXT
    let ret :=
      match read.next_mate_position with
      | none => { ret with next_reference_id := -1 }
      | some mate =>
        { ret with next_reference_id := (ddLookup targetIds mate.reference_name : Int) }
    -- PNEXT
    let ret :=
      match read.next_mate_position with
      | none => { ret with next_reference_start := -1 }
      | some mate => { ret with next_reference_start := mate.position }
    -- TLEN
    let ret := { ret with template_length := read.fragment_length }
    -- QUAL
    let ret := { ret with query_qualities := read.aligned_quality }
    match SamLine.toTags read with
    | Except.error e => Except.error e
    | Except.ok tags => Except.ok { ret with tags := tags }

/-- Reference of the end-to-end scenario: name "chr1", length 1000. -/
def refChr1 : Reference := { name := "chr1", length := 1000 }

/-- Target-id table produced by the header builder for `refChr1`. -/
def targetsChr1 : List (String × Nat) :=
  SamConverter._getTargetIds (SamConverter._getHeader refChr1)

/-- Alignment position chr1:100, forward strand. -/
def posChr1at100 : Position :=
  { reference_name := "chr1", position := 100, strand := Strand.POS_STRAND }

/-- Mate position chr1:200, forward strand. -/
def mateChr1at200 : Position :=
  { reference_name := "chr1", position := 200, strand := Strand.POS_STRAND }

/-- Mate position with every field at its protobuf default (a cleared message). -/
def clearedPos : Position :=
  { reference_name := "", position := 0, strand := Strand.STRAND_UNSPECIFIED }

/-- Linear alignment of the end-to-end scenario: chr1:100, mapping quality 60,
CIGAR [(ALIGNMENT_MATCH, 4)]. -/
def align1 : LinearAlignment :=
  { position := posChr1at100,
    mapping_quality := 60,
    cigar := [{ operation := CigarOperation.ALIGNMENT_MATCH, operation_length := 4 }] }

/-- End-to-end scenario record: mapped, forward strand, paired, proper pair,
fragment "r1", sequence "ACGT", mate at chr1:200, fragment length 150, read
number 0, all boolean flag fields false. -/
def rec1 : ReadAlignment :=
  { fragment_name := "r1",
    aligned_sequence := "ACGT",
    aligned_quality := [],
    alignment := some align1,
    next_mate_position := some mateChr1at200,
    number_reads := 2,
    improper_placement := false,
    read_number := 0,
    secondary_alignment := false,
    failed_vendor_quality_checks := false,
    duplicate_fragment := false,
    supplementary_alignment := false,
    fragment_length := 150,
    attributes := [] }

/-- Record like `rec1` but unmapped: `alignment` absent. -/
def recNoAlignment : ReadAlignment := { rec1 with alignment := none }

/-- Record like `rec1` but with `next_mate_position` absent (Python `None`). -/
def recNoMate : ReadAlignment := { rec1 with next_mate_position := none }

/-- Record like `rec1` but with `read_number = 2` (the pair-member edge case). -/
def recReadNumber2 : ReadAlignment := { rec1 with read_number := 2 }

/-- Fully unmapped record: `alignment` and `next_mate_position` both absent. -/
def recNoMateUnmapped : ReadAlignment :=
  { rec1 with alignment := none, next_mate_position := none }

/-- Record like `rec1` but whose `next_mate_position` is a present, cleared
message. -/
def recClearedMate : ReadAlignment := { rec1 with next_mate_position := some clearedPos }

/-- Alignment position chrX:100, forward strand; "chrX" is not in the chr1
target-id table. -/
def posChrXat100 : Position :=
  { reference_name := "chrX", position := 100, strand := Strand.POS_STRAND }

/-- Linear alignment like `align1` but placed on "chrX". -/
def alignChrX : LinearAlignment := { align1 with position := posChrXat100 }

/-- Record like `rec1` but aligned to the reference "chrX", which is absent
from the chr1 target-id table. -/
def recUnknownRef : ReadAlignment := { rec1 with alignment := some alignChrX }

/-- Unmapped record with a cleared mate, no pair numbering and improper
placement; its flag is READ_UNMAPPED ||| MATE_UNMAPPED = 0xC. -/
def recUnmappedClearedMate : ReadAlignment :=
  { rec1 with alignment := none,
              next_mate_position := some clearedPos,
              number_reads := 1,
              improper_placement := true,
              read_number := -1 }


/-- Proof scaffold: the flag chain of `SamLine.toSamFlag` with every branch
condition abstracted into a boolean.  `d1 d2 d3` are the three read-number
comparisons of the nested pair-member branch. -/
def flagChain (c1 c2 c3 c4 c5 c6 d1 d2 d3 c9 c10 c11 c12 : Bool) : Nat :=
  let flag : Nat := 0
  let flag := if c1 then SamFlags.setFlag flag SamFlags.READ_PAIRED else flag
  let flag := if c2 then SamFlags.setFlag flag SamFlags.READ_PROPER_PAIR else flag
  let flag := if c3 then SamFlags.setFlag flag SamFlags.READ_UNMAPPED else flag
  let flag := if c4 then SamFlags.setFlag flag SamFlags.MATE_UNMAPPED else flag
  let flag := if c5 then SamFlags.setFlag flag SamFlags.READ_REVERSE_STRAND else flag
  let flag := if c6 then SamFlags.setFlag flag SamFlags.MATE_REVERSE_STRAND else flag
  let flag :=
    if d1 then flag
    else if d2 then SamFlags.setFlag flag SamFlags.FIRST_IN_PAIR
    else if d3 then SamFlags.setFlag flag SamFlags.SECOND_IN_PAIR
    else
      SamFlags.setFlag (SamFlags.setFlag flag SamFlags.FIRST_IN_PAIR)
        SamFlags.SECOND_IN_PAIR
  let flag := if c9 then SamFlags.setFlag flag SamFlags.SECONDARY_ALIGNMENT else flag
  let flag := if c10 then SamFlags.setFlag flag SamFlags.FAILED_QUALITY_CHECK else flag
  let flag := if c11 then SamFlags.setFlag flag SamFlags.DUPLICATE_READ else flag
  let flag := if c12 then SamFlags.setFlag flag SamFlags.SUPPLEMENTARY_ALIGNMENT else flag
  flag

/-- Boolean read-reverse-strand condition of `toSamFlag`. -/
def readRevStrand (read : ReadAlignment) : Bool :=
  match read.alignment with
  | some a => a.position.strand == Strand.NEG_STRAND
  | none => false

theorem toSamFlag_eq_chain (read : ReadAlignment) (p : Position)
    (h : read.next_mate_position = some p) :
    SamLine.toSamFlag read = Except.ok (flagChain
      (read.number_reads == 2)
      (!read.improper_placement)
      read.alignment.isNone
      (byteSizeZero p)
      (readRevStrand read)
      (p.strand == Strand.NEG_STRAND)
      (read.read_number == -1)
      (read.read_number == 0)
      (read.read_number == 1)
      read.secondary_alignment
      read.failed_vendor_quality_checks
      read.duplicate_fragment
      read.supplementary_alignment) := by
  unfold SamLine.toSamFlag flagChain readRevStrand
  rw [h]
  cases hal : read.alignment <;> rfl

theorem flagChain_testBit3 (c1 c2 c3 c4 c5 c6 d1 d2 d3 c9 c10 c11 c12 : Bool) :
    (flagChain c1 c2 c3 c4 c5 c6 d1 d2 d3 c9 c10 c11 c12).testBit 3 = c4 := by
  revert c1 c2 c3 c4 c5 c6 d1 d2 d3 c9 c10 c11 c12
  decide

theorem flagChain_testBit6 (c1 c2 c3 c4 c5 c6 d1 d2 d3 c9 c10 c11 c12 : Bool) :
    (flagChain c1 c2 c3 c4 c5 c6 d1 d2 d3 c9 c10 c11 c12).testBit 6 =
      (!d1 && (d2 || !d3)) := by
  revert c1 c2 c3 c4 c5 c6 d1 d2 d3 c9 c10 c11 c12
  decide

theorem flagChain_testBit7 (c1 c2 c3 c4 c5 c6 d1 d2 d3 c9 c10 c11 c12 : Bool) :
    (flagChain c1 c2 c3 c4 c5 c6 d1 d2 d3 c9 c10 c11 c12).testBit 7 =
      (!d1 && !d2) := by
  revert c1 c2 c3 c4 c5 c6 d1 d2 d3 c9 c10 c11 c12
  decide

theorem toSamFlag_none (read : ReadAlignment)
    (h : read.next_mate_position = none) :
    SamLine.toSamFlag read =
      Except.error "AttributeError: NoneType object has no attribute ByteSize" := by
  unfold SamLine.toSamFlag
  rw [h]

theorem pair_member_bool6 (rn : Int) :
    (!(rn == -1) && ((rn == 0) || !(rn == 1))) = (rn != -1 && rn != 1) := by
  by_cases h : rn = 0
  · subst h; decide
  · have h0 : (rn == 0) = false := beq_eq_false_iff_ne.mpr h
    rw [h0]
    simp [bne]

theorem parseTagValue_ok (vs : List PyVal) (h : vs ≠ []) :
    ∃ t, SamLine._parseTagValue vs = Except.ok t := by
  match vs with
  | [] => exact absurd rfl h
  | v :: v2 :: rest =>
    refine ⟨TagParsed.multi (v :: v2 :: rest), ?_⟩
    unfold SamLine._parseTagValue
    rw [if_pos]
    simp
  | [v] =>
    unfold SamLine._parseTagValue
    cases hv : isNumericPyVal v
    · exact ⟨TagParsed.text (pyStrOfVal v), by simp [hv]⟩
    · exact ⟨TagParsed.bare v, by simp [hv]⟩

theorem tagsLoop_ok (attrs : List (String × List PyVal))
    (h : ∀ kv ∈ attrs, kv.2 ≠ []) :
    ∃ ts, SamLine.tagsLoop attrs = Except.ok ts := by
  induction attrs with
  | nil => exact ⟨[], rfl⟩
  | cons kv rest ih =>
    obtain ⟨t, htv⟩ := parseTagValue_ok kv.2 (h kv (by simp))
    obtain ⟨ts, hts⟩ := ih (fun x hx => h x (by simp [hx]))
    exact ⟨(kv.1, t) :: ts, by simp [SamLine.tagsLoop, htv, hts]⟩

theorem toTags_ok (read : ReadAlignment)
    (h : ∀ kv ∈ read.attributes, kv.2 ≠ []) :
    ∃ ts, SamLine.toTags read = Except.ok ts :=
  tagsLoop_ok read.attributes h

theorem toAlignedSegment_some_mate (read : ReadAlignment)
    (targets : List (String × Nat)) (p : Position) (f : Nat)
    (ts : List (String × TagParsed))
    (hm : read.next_mate_position = some p)
    (hf : SamLine.toSamFlag read = Except.ok f)
    (ht : SamLine.toTags read = Except.ok ts) :
    SamLine.toAlignedSegment read targets = Except.ok
      { query_name := read.fragment_name,
        query_sequence := read.aligned_sequence,
        flag := f,
        reference_id :=
          match read.alignment with
          | some a => (ddLookup targets a.position.reference_name : Int)
          | none => unmappedSentinel,
        reference_start :=
          match read.alignment with
          | none => 0
          | some a => a.position.position,
        mapping_quality :=
          match read.alignment with
          | some a => a.mapping_quality
          | none => 0,
        cigar := SamLine.toCigar read,
        next_reference_id := (ddLookup targets p.reference_name : Int),
        next_reference_start := p.position,
        template_length := read.fragment_length,
        query_qualities := read.aligned_quality,
        tags := ts } := by
  unfold SamLine.toAlignedSegment
  rw [hf, ht, hm]
  cases hal : read.alignment <;> rfl

/-- C1: for the end-to-end scenario record (reference "chr1" of length 1000; a
mapped, forward-strand, paired, proper-pair record "r1"/"ACGT" aligned at
chr1:100 with mapping quality 60 and CIGAR [(ALIGNMENT_MATCH, 4)], mate at
chr1:200, fragment length 150, read number 0, all boolean flag fields false)
the header builder assigns target id 0 to "chr1" and the transcoder produces
flag 0x43, reference id 0, position 100, mapping quality 60, CIGAR [(0, 4)],
mate reference id 0, mate position 200 and template length 150. -/
theorem c1_end_to_end :
    SamConverter._getTargetIds (SamConverter._getHeader refChr1) = [("chr1", 0)] ∧
    SamLine.toAlignedSegment rec1 targetsChr1 = Except.ok
      { query_name := "r1",
        query_sequence := "ACGT",
        flag := 0x43,
        reference_id := 0,
        reference_start := 100,
        mapping_quality := 60,
        cigar := [(some 0, 4)],
        next_reference_id := 0,
        next_reference_start := 200,
        template_length := 150,
        query_qualities := [],
        tags := [] } :=
  ⟨rfl, rfl⟩

/-- C2: a record with absent `alignment` does keep the unmapped-sentinel
reference id and gets position 0, but a record with absent `nextMatePosition`
never reaches the mate-field assignments: the flag computation dereferences
`next_mate_position.ByteSize()` first and raises, so the transcoder fails
instead of emitting mate reference id -1 and mate position -1. -/
theorem c2_absence_evaluation :
    (SamLine.toAlignedSegment recNoAlignment targetsChr1).map
      (fun s => (s.reference_id, s.reference_start)) =
      Except.ok (unmappedSentinel, 0) ∧
    SamLine.toAlignedSegment recNoMate targetsChr1 =
      Except.error "AttributeError: NoneType object has no attribute ByteSize" :=
  ⟨rfl, rfl⟩

/-- C3: for each of the nine known CIGAR operation kinds the code assigned by
`ga2int` is the standard SAM code (0=M, 1=I, 2=D, 3=N, 4=S, 5=H, 6=P, 7==,
8=X) and `int2ga` maps that code back to the same kind. -/
theorem c3_cigar_roundtrip :
    SamCigar.ga2int CigarOperation.ALIGNMENT_MATCH = some 0 ∧
    SamCigar.int2ga 0 = Except.ok CigarOperation.ALIGNMENT_MATCH ∧
    SamCigar.ga2int CigarOperation.INSERT = some 1 ∧
    SamCigar.int2ga 1 = Except.ok CigarOperation.INSERT ∧
    SamCigar.ga2int CigarOperation.DELETE = some 2 ∧
    SamCigar.int2ga 2 = Except.ok CigarOperation.DELETE ∧
    SamCigar.ga2int CigarOperation.SKIP = some 3 ∧
    SamCigar.int2ga 3 = Except.ok CigarOperation.SKIP ∧
    SamCigar.ga2int CigarOperation.CLIP_SOFT = some 4 ∧
    SamCigar.int2ga 4 = Except.ok CigarOperation.CLIP_SOFT ∧
    SamCigar.ga2int CigarOperation.CLIP_HARD = some 5 ∧
    SamCigar.int2ga 5 = Except.ok CigarOperation.CLIP_HARD ∧
    SamCigar.ga2int CigarOperation.PAD = some 6 ∧
    SamCigar.int2ga 6 = Except.ok CigarOperation.PAD ∧
    SamCigar.ga2int CigarOperation.SEQUENCE_MATCH = some 7 ∧
    SamCigar.int2ga 7 = Except.ok CigarOperation.SEQUENCE_MATCH ∧
    SamCigar.ga2int CigarOperation.SEQUENCE_MISMATCH = some 8 ∧
    SamCigar.int2ga 8 = Except.ok CigarOperation.SEQUENCE_MISMATCH :=
  ⟨rfl, rfl, rfl, rfl, rfl, rfl, rfl, rfl, rfl, rfl, rfl, rfl, rfl, rfl, rfl,
   rfl, rfl, rfl⟩

/-- C4 (amended): `int2ga` raises `IndexError` exactly for codes above 8 or
below -9; the codes -9..-1 do not fail, because Python list indexing lets a
negative index count from the end of the nine-entry table. -/
theorem c4_out_of_range (code : Int) (h : 8 < code ∨ code < -9) :
    SamCigar.int2ga code = Except.error "IndexError: list index out of range" := by
  have hlen : SamCigar.cigarStrings.length = 9 := rfl
  simp only [SamCigar.int2ga, pyListGet, hlen]
  rcases h with h | h
  · simp only [if_neg (show ¬ code < 0 by omega)]
    rw [dif_neg (by omega)]
  · simp only [if_pos (show code < 0 by omega)]
    rw [dif_neg (by omega)]

/-- C4 witness: code 9 is out of range and raises. -/
theorem c4_out_of_range_witness :
    SamCigar.int2ga 9 = Except.error "IndexError: list index out of range" :=
  c4_out_of_range 9 (Or.inl (by decide))

/-- C4 counterexample: the negative code -1 does not fail with an out-of-range
error; Python negative indexing returns the last table entry. -/
theorem c4_counterexample :
    SamCigar.int2ga (-1) = Except.ok CigarOperation.SEQUENCE_MISMATCH := rfl

/-- C8: every one of the twelve defined flag bits satisfies
`isFlagSet (setFlag 0 B) B`, and `setFlag` computes exactly the bitwise OR:
a result bit is set precisely when it was set in the input flags or in the
OR-ed bit value, so `setFlag` adds the bits of its argument and never clears
an already-set bit. -/
theorem c8_flag_bit_independence :
    (SamFlags.isFlagSet (SamFlags.setFlag 0 SamFlags.READ_PAIRED)
        SamFlags.READ_PAIRED = true ∧
     SamFlags.isFlagSet (SamFlags.setFlag 0 SamFlags.READ_PROPER_PAIR)
        SamFlags.READ_PROPER_PAIR = true ∧
     SamFlags.isFlagSet (SamFlags.setFlag 0 SamFlags.READ_UNMAPPED)
        SamFlags.READ_UNMAPPED = true ∧
     SamFlags.isFlagSet (SamFlags.setFlag 0 SamFlags.MATE_UNMAPPED)
        SamFlags.MATE_UNMAPPED = true ∧
     SamFlags.isFlagSet (SamFlags.setFlag 0 SamFlags.READ_REVERSE_STRAND)
        SamFlags.READ_REVERSE_STRAND = true ∧
     SamFlags.isFlagSet (SamFlags.setFlag 0 SamFlags.MATE_REVERSE_STRAND)
        SamFlags.MATE_REVERSE_STRAND = true ∧
     SamFlags.isFlagSet (SamFlags.setFlag 0 SamFlags.FIRST_IN_PAIR)
        SamFlags.FIRST_IN_PAIR = true ∧
     SamFlags.isFlagSet (SamFlags.setFlag 0 SamFlags.SECOND_IN_PAIR)
        SamFlags.SECOND_IN_PAIR = true ∧
     SamFlags.isFlagSet (SamFlags.setFlag 0 SamFlags.SECONDARY_ALIGNMENT)
        SamFlags.SECONDARY_ALIGNMENT = true ∧
     SamFlags.isFlagSet (SamFlags.setFlag 0 SamFlags.FAILED_QUALITY_CHECK)
        SamFlags.FAILED_QUALITY_CHECK = true ∧
     SamFlags.isFlagSet (SamFlags.setFlag 0 SamFlags.DUPLICATE_READ)
        SamFlags.DUPLICATE_READ = true ∧
     SamFlags.isFlagSet (SamFlags.setFlag 0 SamFlags.SUPPLEMENTARY_ALIGNMENT)
        SamFlags.SUPPLEMENTARY_ALIGNMENT = true) ∧
    (∀ f b i : Nat,
      (SamFlags.setFlag f b).testBit i = (f.testBit i || b.testBit i)) := by
  refine ⟨by decide, ?_⟩
  intro f b i
  simp [SamFlags.setFlag, Nat.testBit_lor]

/-- C5: the flag computation maps `read_number` so that the first-in-pair bit
(bit 6, 0x40) is set exactly when `read_number` is neither -1 nor 1 (that is,
for 0 and for every other value), and the second-in-pair bit (bit 7, 0x80)
exactly when `read_number` is neither -1 nor 0; in particular the
`read_number = 2`, `number_reads = 2` record produces flag 0xC3, which
contains 0x1 ||| 0x40 ||| 0x80. -/
theorem c5_read_number_bits :
    (∀ (read : ReadAlignment) (p : Position) (f : Nat),
        read.next_mate_position = some p →
        SamLine.toSamFlag read = Except.ok f →
        f.testBit 6 = (read.read_number != -1 && read.read_number != 1) ∧
        f.testBit 7 = (read.read_number != -1 && read.read_number != 0)) ∧
    SamLine.toSamFlag recReadNumber2 = Except.ok 0xC3 ∧
    SamFlags.isFlagSet 0xC3
      (SamFlags.READ_PAIRED ||| SamFlags.FIRST_IN_PAIR |||
        SamFlags.SECOND_IN_PAIR) = true := by
  refine ⟨?_, rfl, by decide⟩
  intro read p f hm hf
  rw [toSamFlag_eq_chain read p hm] at hf
  injection hf with hf
  subst hf
  constructor
  · rw [flagChain_testBit6]
    exact pair_member_bool6 read.read_number
  · rw [flagChain_testBit7]
    rfl

/-- C5 witness: the general part applied to the concrete `read_number = 2`
record, whose flag is 0xC3. -/
theorem c5_read_number_bits_witness :
    (0xC3 : Nat).testBit 6 =
      (recReadNumber2.read_number != -1 && recReadNumber2.read_number != 1) ∧
    (0xC3 : Nat).testBit 7 =
      (recReadNumber2.read_number != -1 && recReadNumber2.read_number != 0) :=
  c5_read_number_bits.1 recReadNumber2 mateChr1at200 0xC3 rfl
    c5_read_number_bits.2.1

/-- C6: a tag whose value list has more than one element is emitted whole and
in order; a single numeric value (integer or float) is emitted bare; a single
non-numeric value is emitted as its textual representation. -/
theorem c6_tag_typing (vs : List PyVal) :
    (1 < vs.length → SamLine._parseTagValue vs = Except.ok (TagParsed.multi vs)) ∧
    (∀ v, vs = [v] → isNumericPyVal v = true →
      SamLine._parseTagValue vs = Except.ok (TagParsed.bare v)) ∧
    (∀ v, vs = [v] → isNumericPyVal v = false →
      SamLine._parseTagValue vs = Except.ok (TagParsed.text (pyStrOfVal v))) := by
  refine ⟨?_, ?_, ?_⟩
  · intro h1
    unfold SamLine._parseTagValue
    rw [if_pos h1]
  · intro v hv hnum
    subst hv
    unfold SamLine._parseTagValue
    simp [hnum]
  · intro v hv hnum
    subst hv
    unfold SamLine._parseTagValue
    simp [hnum]

/-- C6 witness: a two-valued tag keeps both values in order, a single integer
is emitted bare, a single string is emitted as text. -/
theorem c6_tag_typing_witness :
    SamLine._parseTagValue [PyVal.intV 1, PyVal.strV "x"] =
      Except.ok (TagParsed.multi [PyVal.intV 1, PyVal.strV "x"]) ∧
    SamLine._parseTagValue [PyVal.intV 5] =
      Except.ok (TagParsed.bare (PyVal.intV 5)) ∧
    SamLine._parseTagValue [PyVal.strV "ab"] =
      Except.ok (TagParsed.text "ab") :=
  ⟨(c6_tag_typing [PyVal.intV 1, PyVal.strV "x"]).1 (by decide),
   (c6_tag_typing [PyVal.intV 5]).2.1 (PyVal.intV 5) rfl rfl,
   (c6_tag_typing [PyVal.strV "ab"]).2.2 (PyVal.strV "ab") rfl rfl⟩

/-- C7 (amended): when the record's alignment or mate alignment names a
reference absent from the target-id table, the transcoder does not fail, but
the value it substitutes is 0 — the `defaultdict(int)` default, which
coincides with the first reference's target id — not the unmapped sentinel. -/
theorem c7_unknown_reference (read : ReadAlignment)
    (targets : List (String × Nat)) (a : LinearAlignment) (p : Position)
    (hal : read.alignment = some a)
    (hm : read.next_mate_position = some p)
    (hattrs : ∀ kv ∈ read.attributes, kv.2 ≠ []) :
    (ddFind targets a.position.reference_name = none →
      (SamLine.toAlignedSegment read targets).map AlignedSegment.reference_id =
        Except.ok 0) ∧
    (ddFind targets p.reference_name = none →
      (SamLine.toAlignedSegment read targets).map
        AlignedSegment.next_reference_id = Except.ok 0) := by
  obtain ⟨ts, hts⟩ := toTags_ok read hattrs
  have hseg := toAlignedSegment_some_mate read targets p _ ts hm
    (toSamFlag_eq_chain read p hm) hts
  rw [hseg]
  constructor
  · intro hfind
    simp [Except.map, hal, ddLookup, hfind]
  · intro hfind
    simp [Except.map, ddLookup, hfind]

/-- C7 witness: the record aligned to the absent reference "chrX" is
transcoded without failure and gets reference id 0. -/
theorem c7_unknown_reference_witness :
    (SamLine.toAlignedSegment recUnknownRef targetsChr1).map
      AlignedSegment.reference_id = Except.ok 0 :=
  (c7_unknown_reference recUnknownRef targetsChr1 alignChrX mateChr1at200 rfl rfl
    (by intro kv hkv; simp [recUnknownRef, rec1] at hkv)).1 rfl

/-- C7 counterexample: with the chr1 table, the "chrX" record's output
reference id is 0, which is not the unmapped sentinel (it is chr1's own
target id), so the claim that the unmapped sentinel is substituted fails. -/
theorem c7_counterexample :
    (SamLine.toAlignedSegment recUnknownRef targetsChr1).map
      AlignedSegment.reference_id = Except.ok 0 ∧
    (0 : Int) ≠ unmappedSentinel :=
  ⟨rfl, by decide⟩

/-- C9 (amended): the mate-unmapped bit (0x8) is set if and only if
`next_mate_position` is present and cleared (every field at its default);
when `next_mate_position` is absent the flag computation raises
`AttributeError` instead of producing a flag. -/
theorem c9_mate_unmapped_bit :
    (∀ (read : ReadAlignment) (p : Position) (f : Nat),
        read.next_mate_position = some p →
        SamLine.toSamFlag read = Except.ok f →
        f.testBit 3 = byteSizeZero p) ∧
    (∀ read : ReadAlignment, read.next_mate_position = none →
        SamLine.toSamFlag read =
          Except.error "AttributeError: NoneType object has no attribute ByteSize") := by
  constructor
  · intro read p f hm hf
    rw [toSamFlag_eq_chain read p hm] at hf
    injection hf with hf
    subst hf
    exact flagChain_testBit3 _ _ _ _ _ _ _ _ _ _ _ _ _
  · intro read hm
    exact toSamFlag_none read hm

/-- C9 witness: the unmapped record with a cleared mate has flag 0xC, whose
bit 3 matches `byteSizeZero clearedPos = true`; the record with an absent
mate raises. -/
theorem c9_mate_unmapped_bit_witness :
    (0xC : Nat).testBit 3 = byteSizeZero clearedPos ∧
    SamLine.toSamFlag recNoMate =
      Except.error "AttributeError: NoneType object has no attribute ByteSize" :=
  ⟨c9_mate_unmapped_bit.1 recUnmappedClearedMate clearedPos 0xC rfl rfl,
   c9_mate_unmapped_bit.2 recNoMate rfl⟩

/-- C9 counterexample: a record whose `next_mate_position` is absent does not
get the mate-unmapped bit set — the flag computation raises before producing
any flag, refuting the absent half of the claimed equivalence. -/
theorem c9_counterexample :
    SamLine.toSamFlag recNoMateUnmapped =
      Except.error "AttributeError: NoneType object has no attribute ByteSize" := rfl

/-- C10: a record whose `next_mate_position` is present but cleared gets the
mate-unmapped bit set, yet its mate fields are not -1 and -1: the mate reference
id is the table lookup of the cleared (empty) reference name and the mate
position is 0, because the flag path tests `ByteSize() == 0` while the field
path tests only `is None`. -/
theorem c10_cleared_mate_fields (read : ReadAlignment)
    (targets : List (String × Nat)) (p : Position)
    (hm : read.next_mate_position = some p)
    (hcl : byteSizeZero p = true)
    (hattrs : ∀ kv ∈ read.attributes, kv.2 ≠ []) :
    (SamLine.toAlignedSegment read targets).map
      (fun s => (s.flag.testBit 3, s.next_reference_id, s.next_reference_start)) =
      Except.ok (true, (ddLookup targets "" : Int), 0) ∧
    (ddLookup targets "" : Int) ≠ -1 := by
  have hbz := hcl
  simp only [byteSizeZero, Bool.and_eq_true, beq_iff_eq] at hbz
  obtain ⟨⟨hname, hpos⟩, -⟩ := hbz
  obtain ⟨ts, hts⟩ := toTags_ok read hattrs
  have hseg := toAlignedSegment_some_mate read targets p _ ts hm
    (toSamFlag_eq_chain read p hm) hts
  rw [hseg]
  constructor
  · simp [Except.map, flagChain_testBit3, hcl, hname, hpos]
  · intro hcontra
    have hnonneg : (0 : Int) ≤ (ddLookup targets "" : Int) :=
      Int.natCast_nonneg _
    omega

/-- C10 witness: the concrete cleared-mate record against the chr1 table: the
mate-unmapped bit is set while the mate reference id is the lookup of the
empty name (0, not -1) and the mate position is 0. -/
theorem c10_cleared_mate_fields_witness :
    (SamLine.toAlignedSegment recClearedMate targetsChr1).map
      (fun s => (s.flag.testBit 3, s.next_reference_id, s.next_reference_start)) =
      Except.ok (true, (ddLookup targetsChr1 "" : Int), 0) ∧
    (ddLookup targetsChr1 "" : Int) ≠ -1 :=
  c10_cleared_mate_fields recClearedMate targetsChr1 clearedPos rfl rfl
    (by intro kv hkv; simp [recClearedMate, rec1] at hkv)
